import Mathlib

/-!
Verification of the Bedrock knowledge-base Flask application (`src/app.py`)
against its natural-language specification.

The application is sequential request/response glue over external AWS
services.  We shallowly embed each request handler as a pure Lean function
from the request data plus an *environment* (a record of the outcomes the
external AWS calls would produce) to the HTTP response together with a
trace of the outbound calls / side effects the handler performs.  External
failures are values of `Except String`, mirroring Python exceptions whose
message is `str(e)`.
-/

namespace App

/-- Minimal JSON model: every body the handlers under test build with
`jsonify` is a flat object with string-valued fields, so we model a JSON
object as its ordered field list. -/
abbrev JsonObj := List (String × String)

/-- The JSON body `jsonify({'error': msg})`. -/
def jsonError (msg : String) : JsonObj := [("error", msg)]

/-- The JSON body `jsonify({'message': msg})`. -/
def jsonMessage (msg : String) : JsonObj := [("message", msg)]

/-- An HTTP response as produced by a Flask view function: either a JSON
body with a status code, or a bare text/HTML body (Flask assigns a plain
`str` return status 200). -/
inductive Resp where
  | json (status : Nat) (body : JsonObj)
  | text (status : Nat) (body : String)
  deriving DecidableEq, Repr

/-- `app.config ALLOWED_EXTENSIONS = set containing the single string pdf`
(app.py line 16). -/
def allowedExtensions : List String := ["pdf"]

/-- `app.config UPLOAD_FOLDER = uploads` (app.py line 14). -/
def uploadFolder : String := "uploads"

/-- ASCII lowercasing, character by character (Python `str.lower` on the
extensions compared here). -/
def pyLower (s : String) : String := String.mk (s.data.map Char.toLower)

/-- The substring after the last dot (`filename.rsplit` with separator
dot and maxsplit 1, element 1): the longest dot-free suffix. -/
def extAfterLastDot (s : String) : String :=
  String.mk ((s.data.reverse.takeWhile (fun c => c ≠ '.')).reverse)

/-- `allowed_file` (app.py lines 241-243): the filename contains a dot and
the piece after the last dot, lowercased, is an allowed extension. -/
def allowed_file (filename : String) : Bool :=
  filename.data.contains '.' &&
    allowedExtensions.contains (pyLower (extAfterLastDot filename))

/-- Side effects performed by the `/upload` POST handler, in order. -/
inductive UploadEffect where
  | saveLocal (path : String)
  | s3Upload (bucket : String) (key : String)
  | startIngestionJob
  | removeLocal (path : String)
  deriving DecidableEq, Repr

/-- Outcomes of the external calls the upload handler makes, plus the
third-party `werkzeug.utils.secure_filename` function (not repository
code), taken as part of the environment. -/
structure UploadEnv where
  sec : String → String
  s3UploadResult : Except String Unit
  ingestionResult : Except String String

/-- Name of the backing data bucket (app.py line 41); the suffix and
account id are process-startup values, abstracted as a parameter-free
constant since no claim depends on their content. -/
def data_bucket_name : String := "bedrock-kb-data-suffix-account"

/-- The POST branch of `upload_file` (app.py lines 252-291).  The request
carries `none` when the multipart form has no `file` part, and
`some filename` otherwise (`some ""` is the browser's empty part).
Returns the HTTP response and the ordered list of side effects
(local save, S3 upload call, ingestion-trigger call, local removal). -/
def uploadPost (filePart : Option String) (env : UploadEnv) :
    Resp × List UploadEffect :=
  match filePart with
  | none => (Resp.json 400 (jsonError "No file part"), [])
  | some fn =>
    if fn = "" then
      (Resp.json 400 (jsonError "No selected file"), [])
    else if allowed_file fn then
      let filename := env.sec fn
      let filePath := uploadFolder ++ "/" ++ filename
      -- `file.save(file_path)` then try / except / finally
      match env.s3UploadResult with
      | Except.error e =>
        (Resp.json 500 (jsonError e),
         [UploadEffect.saveLocal filePath,
          UploadEffect.s3Upload data_bucket_name filename,
          UploadEffect.removeLocal filePath])
      | Except.ok _ =>
        match env.ingestionResult with
        | Except.error e =>
          (Resp.json 500 (jsonError e),
           [UploadEffect.saveLocal filePath,
            UploadEffect.s3Upload data_bucket_name filename,
            UploadEffect.startIngestionJob,
            UploadEffect.removeLocal filePath])
        | Except.ok jobId =>
          (Resp.json 200
             [("message", "File uploaded successfully"),
              ("filename", filename),
              ("ingestion_job_id", jobId)],
           [UploadEffect.saveLocal filePath,
            UploadEffect.s3Upload data_bucket_name filename,
            UploadEffect.startIngestionJob,
            UploadEffect.removeLocal filePath])
    else
      (Resp.json 400 (jsonError "Invalid file type"), [])

/-- Whether the local temporary file exists after replaying the handler's
effect trace (save creates it, remove deletes it; nothing else touches
the local filesystem). -/
def localFileExists (effects : List UploadEffect) : Bool :=
  effects.foldl
    (fun ex e =>
      match e with
      | UploadEffect.saveLocal _ => true
      | UploadEffect.removeLocal _ => false
      | _ => ex)
    false

/-! ### Python string semantics used by the query pipeline

The query handler builds its prompt with an f-string interpolating
`contexts` (a Python list of strings, rendered by `str(list)`) and the
query, and then calls `.format(contexts, query)` on the result.  We model
`repr` on strings, `str` on lists of strings, and `str.format` with
positional arguments.  (`repr`'s backslash-escapes for non-printable
characters are elided: they produce only backslashes, letters and digits,
never brace characters, so they are irrelevant to every property proved
below.) -/

/-- Escape a character for Python string `repr` under the given quote
character. -/
def pyEscapeChar (quote : Char) (c : Char) : List Char :=
  if c = '\\' then ['\\', '\\']
  else if c = quote then ['\\', quote]
  else if c = '\n' then ['\\', 'n']
  else if c = '\t' then ['\\', 't']
  else if c = '\r' then ['\\', 'r']
  else [c]

/-- Python `repr` of a string: single-quoted, unless the string contains a
single quote and no double quote, in which case double-quoted; the quote
character and backslashes are escaped. -/
def pyReprStr (s : String) : String :=
  let quote : Char :=
    if s.data.contains '\x27' && !(s.data.contains '"') then '"' else '\x27'
  String.mk (quote :: s.data.foldr (fun c acc => pyEscapeChar quote c ++ acc) [quote])

/-- Comma-space join of the `repr`s of the elements. -/
def pyStrListAux : List String → String
  | [] => ""
  | [x] => pyReprStr x
  | x :: y :: ys => pyReprStr x ++ ", " ++ pyStrListAux (y :: ys)

/-- Python `str` of a list of strings: comma-separated `repr`s in square
brackets. -/
def pyStrList (xs : List String) : String :=
  "[" ++ pyStrListAux xs ++ "]"

/-- A string containing neither `\x7b` nor `\x7d`. -/
def braceFree (s : String) : Bool :=
  s.data.all (fun c => c ≠ '\x7b' && c ≠ '\x7d')

/-- Value of a field made purely of decimal digits. -/
def pyDigitsToNat (cs : List Char) : Nat :=
  cs.foldl (fun n c => 10 * n + (c.toNat - 48)) 0

/-- Resolve one replacement field of `str.format` against positional
arguments: an empty field uses (and advances) the auto-numbering counter,
a digit field indexes explicitly; anything else (named fields, format
specs — never produced by the code under study) is rejected, as are
out-of-range indices (Python raises in both cases). -/
def pyFormatField (args : List String) (field : List Char) (auto : Nat) :
    Option (String × Nat) :=
  if field.isEmpty then
    (args.get? auto).map (fun a => (a, auto + 1))
  else if field.all Char.isDigit then
    (args.get? (pyDigitsToNat field)).map (fun a => (a, auto))
  else none

/-- Core of Python `str.format` over the character list: `\x7b\x7b` and
`\x7d\x7d` are literal braces, `\x7b` opens a replacement field closed by
the next `\x7d`, a lone `\x7d` is an error (`none` models the raised
`ValueError`), and every other character is copied. -/
def pyFormatAux (args : List String) : List Char → Nat → Option (List Char)
  | [], _ => some []
  | c :: rest, auto =>
    if c = '\x7b' then
      match rest with
      | [] => none
      | d :: rest2 =>
        if d = '\x7b' then
          (pyFormatAux args rest2 auto).map (fun t => '\x7b' :: t)
        else
          match hr : (d :: rest2).dropWhile (fun x => x ≠ '\x7d') with
          | [] => none
          | e :: rest3 =>
            if e = '\x7d' then
              match pyFormatField args ((d :: rest2).takeWhile (fun x => x ≠ '\x7d')) auto with
              | some (sub, auto2) =>
                (pyFormatAux args rest3 auto2).map (fun t => sub.data ++ t)
              | none => none
            else none
    else if c = '\x7d' then
      match rest with
      | [] => none
      | d :: rest2 =>
        if d = '\x7d' then (pyFormatAux args rest2 auto).map (fun t => '\x7d' :: t)
        else none
    else
      (pyFormatAux args rest auto).map (fun t => c :: t)
  termination_by cs _ => cs.length
  decreasing_by
  all_goals simp_wf
  · omega
  · have h : (List.dropWhile (fun x => x ≠ '\x7d') (d :: rest2)).length ≤
        (d :: rest2).length := (List.dropWhile_suffix _).length_le
    rw [hr] at h
    simp at h
    omega
  · omega

/-- Python `str.format` with positional arguments. -/
def pyFormat (s : String) (args : List String) : Option String :=
  (pyFormatAux args s.data 0).map String.mk

/-- On a character list with no brace characters, `pyFormatAux` copies its
input unchanged. -/
theorem pyFormatAux_of_braceFree (args : List String) (cs : List Char) :
    ∀ auto : Nat, (∀ c ∈ cs, c ≠ '\x7b' ∧ c ≠ '\x7d') →
      pyFormatAux args cs auto = some cs := by
  induction cs with
  | nil => intro auto _; simp [pyFormatAux]
  | cons c rest ih =>
    intro auto h
    have hc := h c (List.mem_cons_self _ _)
    rw [pyFormatAux.eq_def]
    simp only [if_neg hc.1, if_neg hc.2]
    rw [ih auto (fun x hx => h x (List.mem_cons_of_mem _ hx))]
    rfl

/-- On a brace-free string, Python `str.format` is the identity
(no replacement field is found and no `ValueError` is raised). -/
theorem pyFormat_of_braceFree (s : String) (args : List String)
    (h : braceFree s = true) : pyFormat s args = some s := by
  have h2 : ∀ c ∈ s.data, c ≠ '\x7b' ∧ c ≠ '\x7d' := by
    intro c hc
    have := (List.all_eq_true.mp h) c hc
    simpa using this
  simp [pyFormat, pyFormatAux_of_braceFree args s.data 0 h2]

/-! ### Brace-freeness is preserved by the pieces of prompt assembly -/

/-- Brace-freeness distributes over string concatenation. -/
theorem braceFree_append (a b : String) :
    braceFree (a ++ b) = (braceFree a && braceFree b) := by
  simp [braceFree, String.data_append, List.all_append]

/-- `repr`-escaping a non-brace character under a non-brace quote yields
only non-brace characters. -/
theorem pyEscapeChar_braceFree (q c : Char)
    (hq : q ≠ '\x7b' ∧ q ≠ '\x7d') (hc : c ≠ '\x7b' ∧ c ≠ '\x7d') :
    ∀ d ∈ pyEscapeChar q c, d ≠ '\x7b' ∧ d ≠ '\x7d' := by
  unfold pyEscapeChar
  split_ifs <;> simp_all

/-- `repr` of a brace-free string is brace-free. -/
theorem pyReprStr_braceFree (x : String) (h : braceFree x = true) :
    braceFree (pyReprStr x) = true := by
  unfold pyReprStr braceFree
  set q : Char :=
    if x.data.contains '\x27' && !(x.data.contains '"') then '"' else '\x27' with hqdef
  have hq : q ≠ '\x7b' ∧ q ≠ '\x7d' := by
    rw [hqdef]; split_ifs <;> exact ⟨by decide, by decide⟩
  have hx : ∀ c ∈ x.data, c ≠ '\x7b' ∧ c ≠ '\x7d' := by
    intro c hc
    have := (List.all_eq_true.mp h) c hc
    simpa using this
  suffices hs : ∀ cs : List Char, (∀ c ∈ cs, c ≠ '\x7b' ∧ c ≠ '\x7d') →
      (List.all (cs.foldr (fun c acc => pyEscapeChar q c ++ acc) [q])
        (fun c => c ≠ '\x7b' && c ≠ '\x7d')) = true by
    have := hs x.data hx
    simp only [List.all_cons, this, Bool.and_true]
    simp [hq.1, hq.2]
  intro cs
  induction cs with
  | nil => intro _; simp [hq.1, hq.2]
  | cons c rest ih =>
    intro hall
    simp only [List.foldr_cons, List.all_append]
    have h1 := pyEscapeChar_braceFree q c hq (hall c (List.mem_cons_self _ _))
    have h2 := ih (fun d hd => hall d (List.mem_cons_of_mem _ hd))
    rw [h2, Bool.and_true]
    rw [List.all_eq_true]
    intro d hd
    have := h1 d hd
    simpa using this

/-- `str` of a list of brace-free strings is brace-free. -/
theorem pyStrList_braceFree (xs : List String)
    (h : ∀ x ∈ xs, braceFree x = true) :
    braceFree (pyStrList xs) = true := by
  have haux : ∀ ys : List String, (∀ x ∈ ys, braceFree x = true) →
      braceFree (pyStrListAux ys) = true := by
    intro ys
    induction ys with
    | nil => intro _; decide
    | cons x rest ih =>
      intro hall
      match rest with
      | [] =>
        exact pyReprStr_braceFree x (hall x (List.mem_cons_self _ _))
      | y :: ys2 =>
        rw [pyStrListAux, braceFree_append, braceFree_append]
        rw [pyReprStr_braceFree x (hall x (List.mem_cons_self _ _))]
        rw [ih (fun z hz => hall z (List.mem_cons_of_mem _ hz))]
        rfl
  rw [pyStrList, braceFree_append, braceFree_append, haux xs h]
  rfl

/-! ### The query pipeline (`query_kb`, app.py lines 295-362) -/

/-- Text of the prompt f-string before the interpolated `contexts`
(app.py lines 327-331), byte for byte including the trailing spaces on
the first two sentences. -/
def promptPart1 : String :=
  "\n            Human: You are a financial advisor AI system, and provides answers to questions by using fact based and statistical information when possible. \n            Use the following pieces of information to provide a concise answer to the question enclosed in <question> tags. \n            If you don\x27t know the answer, just say that you don\x27t know, don\x27t try to make up an answer.\n            <context>\n            "

/-- Text of the prompt f-string between `contexts` and `query`
(app.py lines 332-336). -/
def promptPart2 : String :=
  "\n            </context>\n\n            <question>\n            "

/-- Text of the prompt f-string after the interpolated `query`
(app.py lines 337-341). -/
def promptPart3 : String :=
  "\n            </question>\n\n            The response should be specific and use statistics or numbers when possible.\n\n            Assistant:"

/-- The f-string `prompt` of `query_kb` (app.py lines 327-341): the fixed
template with `str(contexts)` and the query interpolated. -/
def buildPrompt (contexts : List String) (query : String) : String :=
  promptPart1 ++ pyStrList contexts ++ promptPart2 ++ query ++ promptPart3

/-- The message text sent to the model (app.py line 342): the extra
`prompt.format(contexts, query)` applied to the already-interpolated
prompt; `none` models the `ValueError` `str.format` raises on a stray
brace. -/
def messageText (contexts : List String) (query : String) : Option String :=
  pyFormat (buildPrompt contexts query) [pyStrList contexts, query]

/-- One content block of an Anthropic message. -/
structure ContentBlock where
  type : String
  text : String
  deriving DecidableEq, Repr

/-- One chat message of the payload. -/
structure ChatMessage where
  role : String
  content : List ContentBlock
  deriving DecidableEq, Repr

/-- The generation request body `sonnet_payload` (app.py lines 343-349);
the fractional decoding parameters are exact rationals. -/
structure SonnetPayload where
  anthropic_version : String
  max_tokens : Nat
  messages : List ChatMessage
  temperature : Rat
  top_p : Rat
  deriving DecidableEq, Repr

/-- Build the payload for a given message text, exactly as app.py lines
342-349 do. -/
def mkSonnetPayload (msgText : String) : SonnetPayload :=
  { anthropic_version := "bedrock-2023-05-31"
    max_tokens := 512
    messages := [{ role := "user", content := [{ type := "text", text := msgText }] }]
    temperature := 0.5
    top_p := 1 }

/-- Outbound calls the query handler makes, in order. -/
inductive QueryCall where
  | retrieve (kbId : String) (queryText : String) (numberOfResults : Nat)
      (searchType : String)
  | invokeModel (modelId : String) (payload : SonnetPayload)
  deriving DecidableEq, Repr

/-- Outcomes of the external calls the query handler makes: the knowledge
base id held by the process-wide instance, the retrieval outcome (the
`content.text` of each retrieved result, in order), and the generation
outcome (the extracted `content[0].text` of the model response, or the
exception raised anywhere in the invoke/parse sequence). -/
structure QueryEnv where
  kbId : String
  retrieveResult : Except String (List String)
  invokeResult : SonnetPayload → Except String String

/-- The POST branch of `query_kb` (app.py lines 297-360).  The request
carries `none` when the form has no `query` field.  Returns the HTTP
response and the ordered outbound call trace.  (When `.format` raises,
the fixed message `"ValueError"` stands in for Python's formatted
message, whose exact text no property below depends on.) -/
def queryPost (q : Option String) (env : QueryEnv) : Resp × List QueryCall :=
  match q with
  | none => (Resp.json 400 (jsonError "No query provided"), [])
  | some qs =>
    if qs = "" then (Resp.json 400 (jsonError "No query provided"), [])
    else
      let rCall := QueryCall.retrieve env.kbId qs 5 "HYBRID"
      match env.retrieveResult with
      | Except.error e => (Resp.json 500 (jsonError e), [rCall])
      | Except.ok contexts =>
        match messageText contexts qs with
        | none => (Resp.json 500 (jsonError "ValueError"), [rCall])
        | some m =>
          let payload := mkSonnetPayload m
          let iCall := QueryCall.invokeModel
            "anthropic.claude-3-sonnet-20240229-v1:0" payload
          match env.invokeResult payload with
          | Except.error e => (Resp.json 500 (jsonError e), [rCall, iCall])
          | Except.ok answer => (Resp.text 200 answer, [rCall, iCall])

/-! ### Provisioning (`BedrockKnowledgeBase._setup_knowledge_base` and
`_create_role_for_kb`, app.py lines 55-169) -/

/-- One entry of the `data_sources` list handed to the constructor
(app.py lines 225-227). -/
structure DataSource where
  type : String
  bucket_name : String
  deriving DecidableEq, Repr

/-- Outbound provisioning calls, in order. -/
inductive ProvCall where
  | createBucket (bucket : String)
  | createRole (roleName : String)
  | createPolicy (policyName : String)
  | attachRolePolicy
  | createKnowledgeBase
  | createDataSource (bucket : String)
  deriving DecidableEq, Repr

/-- Outcomes the external AWS calls would produce during provisioning
(role/policy results carry the created ARNs, the knowledge-base result
the new id, the data-source result the new data-source id). -/
structure ProvEnv where
  createBucket : String → Except String Unit
  createRole : String → Except String String
  createPolicy : String → Except String String
  attachRolePolicy : Except String Unit
  createKnowledgeBase : Except String String
  createDataSource : String → Except String String

/-- `_create_role_for_kb` (app.py lines 92-144): creates the role, the
policy, and attaches it; the whole body is a try whose except logs and
re-raises, so each failure propagates as-is. -/
def create_role_for_kb (sfx : String) (env : ProvEnv) :
    Except String String × List ProvCall :=
  let roleName := "BedrockKBRole-" ++ sfx
  let policyName := "BedrockKBPolicy-" ++ sfx
  match env.createRole roleName with
  | Except.error e => (Except.error e, [ProvCall.createRole roleName])
  | Except.ok roleArn =>
    match env.createPolicy policyName with
    | Except.error e =>
      (Except.error e, [ProvCall.createRole roleName, ProvCall.createPolicy policyName])
    | Except.ok _ =>
      match env.attachRolePolicy with
      | Except.error e =>
        (Except.error e,
         [ProvCall.createRole roleName, ProvCall.createPolicy policyName,
          ProvCall.attachRolePolicy])
      | Except.ok _ =>
        (Except.ok roleArn,
         [ProvCall.createRole roleName, ProvCall.createPolicy policyName,
          ProvCall.attachRolePolicy])

/-- The `_add_s3_data_source` loop of `_setup_knowledge_base` (app.py
lines 82-84 and 146-169): one `create_data_source` call per S3 source,
stopping at (and propagating) the first failure. -/
def addDataSourcesLoop (env : ProvEnv) : List DataSource →
    Except String Unit × List ProvCall
  | [] => (Except.ok (), [])
  | s :: rest =>
    if s.type = "S3" then
      match env.createDataSource s.bucket_name with
      | Except.error e => (Except.error e, [ProvCall.createDataSource s.bucket_name])
      | Except.ok _ =>
        let (r, t) := addDataSourcesLoop env rest
        (r, ProvCall.createDataSource s.bucket_name :: t)
    else addDataSourcesLoop env rest

/-- The bucket-creation loop of `_setup_knowledge_base` (app.py lines
57-63): each `create_bucket` call sits in its own try whose except only
logs, so the loop continues — and the call trace is the same — whichever
outcome the environment produces. -/
def createBucketsLoop (env : ProvEnv) : List DataSource → List ProvCall
  | [] => []
  | s :: rest =>
    if s.type = "S3" then
      match env.createBucket s.bucket_name with
      | Except.error _ => ProvCall.createBucket s.bucket_name :: createBucketsLoop env rest
      | Except.ok _ => ProvCall.createBucket s.bucket_name :: createBucketsLoop env rest
    else createBucketsLoop env rest

/-- `_setup_knowledge_base` (app.py lines 55-90): creates the S3 buckets
(each failure caught and only logged — the loop continues regardless of
the outcome), then inside a try/except-raise creates the role, the
knowledge base and the data sources.  Returns the knowledge-base id (or
the propagated error) together with the outbound call trace. -/
def setup_knowledge_base (sources : List DataSource) (sfx : String)
    (env : ProvEnv) : Except String String × List ProvCall :=
  let bucketCalls := createBucketsLoop env sources
  match create_role_for_kb sfx env with
  | (Except.error e, roleTrace) => (Except.error e, bucketCalls ++ roleTrace)
  | (Except.ok _, roleTrace) =>
    match env.createKnowledgeBase with
    | Except.error e =>
      (Except.error e, bucketCalls ++ roleTrace ++ [ProvCall.createKnowledgeBase])
    | Except.ok kbId =>
      match addDataSourcesLoop env sources with
      | (Except.error e, dsTrace) =>
        (Except.error e,
         bucketCalls ++ roleTrace ++ [ProvCall.createKnowledgeBase] ++ dsTrace)
      | (Except.ok _, dsTrace) =>
        (Except.ok kbId,
         bucketCalls ++ roleTrace ++ [ProvCall.createKnowledgeBase] ++ dsTrace)

/-! ### Deletion (`BedrockKnowledgeBase.delete_kb`, app.py lines 186-218,
and the `/cleanup` route, lines 386-393) -/

/-- Outbound calls of `delete_kb`, in order. -/
inductive DeleteEvent where
  | listDataSources
  | deleteDataSource (dsId : String)
  | deleteKnowledgeBase
  | listObjects (bucket : String)
  | deleteObjects (bucket : String) (keys : List String)
  | deleteBucket (bucket : String)
  deriving DecidableEq, Repr

/-- Outcomes the external AWS calls would produce during deletion
(`listDataSources` yields the data-source ids of the summaries,
`listObjects` the object keys — the empty list models a response without
a `Contents` entry). -/
structure DeleteEnv where
  listDataSources : Except String (List String)
  deleteDataSource : String → Except String Unit
  deleteKnowledgeBase : Except String Unit
  listObjects : String → Except String (List String)
  deleteObjects : String → List String → Except String Unit
  deleteBucket : String → Except String Unit

/-- The data-source deletion loop (app.py lines 191-196), stopping at the
first failure. -/
def deleteDataSourcesLoop (env : DeleteEnv) : List String →
    Except String Unit × List DeleteEvent
  | [] => (Except.ok (), [])
  | dsId :: rest =>
    match env.deleteDataSource dsId with
    | Except.error e => (Except.error e, [DeleteEvent.deleteDataSource dsId])
    | Except.ok _ =>
      let (r, t) := deleteDataSourcesLoop env rest
      (r, DeleteEvent.deleteDataSource dsId :: t)

/-- Purge one backing bucket (app.py lines 206-214): list the objects,
bulk-delete them when the listing is non-empty (the `Contents` key is
present), then delete the bucket; the first failure propagates. -/
def purgeOneBucket (env : DeleteEnv) (bucket : String) :
    Except String Unit × List DeleteEvent :=
  match env.listObjects bucket with
  | Except.error e => (Except.error e, [DeleteEvent.listObjects bucket])
  | Except.ok keys =>
    if keys.isEmpty then
      match env.deleteBucket bucket with
      | Except.error e =>
        (Except.error e,
         [DeleteEvent.listObjects bucket, DeleteEvent.deleteBucket bucket])
      | Except.ok _ =>
        (Except.ok (),
         [DeleteEvent.listObjects bucket, DeleteEvent.deleteBucket bucket])
    else
      match env.deleteObjects bucket keys with
      | Except.error e =>
        (Except.error e,
         [DeleteEvent.listObjects bucket, DeleteEvent.deleteObjects bucket keys])
      | Except.ok _ =>
        match env.deleteBucket bucket with
        | Except.error e =>
          (Except.error e,
           [DeleteEvent.listObjects bucket, DeleteEvent.deleteObjects bucket keys,
            DeleteEvent.deleteBucket bucket])
        | Except.ok _ =>
          (Except.ok (),
           [DeleteEvent.listObjects bucket, DeleteEvent.deleteObjects bucket keys,
            DeleteEvent.deleteBucket bucket])

/-- The bucket purge loop (app.py lines 203-214): one purge per S3
source, stopping at the first failure. -/
def purgeBucketsLoop (env : DeleteEnv) : List DataSource →
    Except String Unit × List DeleteEvent
  | [] => (Except.ok (), [])
  | s :: rest =>
    if s.type = "S3" then
      match purgeOneBucket env s.bucket_name with
      | (Except.error e, t) => (Except.error e, t)
      | (Except.ok _, t) =>
        let (r, t2) := purgeBucketsLoop env rest
        (r, t ++ t2)
    else purgeBucketsLoop env rest

/-- `delete_kb` (app.py lines 186-218): when a knowledge-base id is held,
delete the data sources, then the knowledge base, then (when
`delete_s3_bucket` is set) purge and delete the buckets; the surrounding
try/except logs and re-raises, so the first failure propagates and ends
the trace. -/
def delete_kb (kbId : Option String) (delete_s3_bucket : Bool)
    (sources : List DataSource) (env : DeleteEnv) :
    Except String Unit × List DeleteEvent :=
  match kbId with
  | none => (Except.ok (), [])
  | some _ =>
    match env.listDataSources with
    | Except.error e => (Except.error e, [DeleteEvent.listDataSources])
    | Except.ok dsIds =>
      match deleteDataSourcesLoop env dsIds with
      | (Except.error e, t) => (Except.error e, DeleteEvent.listDataSources :: t)
      | (Except.ok _, t) =>
        match env.deleteKnowledgeBase with
        | Except.error e =>
          (Except.error e,
           DeleteEvent.listDataSources :: t ++ [DeleteEvent.deleteKnowledgeBase])
        | Except.ok _ =>
          if delete_s3_bucket then
            let (r, t2) := purgeBucketsLoop env sources
            (r, DeleteEvent.listDataSources :: t
                 ++ [DeleteEvent.deleteKnowledgeBase] ++ t2)
          else
            (Except.ok (),
             DeleteEvent.listDataSources :: t ++ [DeleteEvent.deleteKnowledgeBase])

/-- The `/cleanup` route (app.py lines 386-393): calls
`delete_kb(delete_s3_bucket=True)` and turns success into a 200 message
and any raised exception into a 500 JSON error — it never re-raises. -/
def cleanup (kbId : Option String) (sources : List DataSource)
    (env : DeleteEnv) : Resp :=
  match (delete_kb kbId true sources env).1 with
  | Except.ok _ => Resp.json 200 (jsonMessage "Resources cleaned up successfully")
  | Except.error e => Resp.json 500 (jsonError e)

/-- Phase of a deletion event: data-source bindings are deleted in phase
1, the knowledge-base resource in phase 2, the backing storage in phase
3 (the initial listing is phase 0). -/
def deletePhase : DeleteEvent → Nat
  | DeleteEvent.listDataSources => 0
  | DeleteEvent.deleteDataSource _ => 1
  | DeleteEvent.deleteKnowledgeBase => 2
  | DeleteEvent.listObjects _ => 3
  | DeleteEvent.deleteObjects _ _ => 3
  | DeleteEvent.deleteBucket _ => 3

/-! ## Claims -/

/-- Claim C3: for every upload request whose file passes the extension
check and is saved locally, the local temporary file does not exist after
the handler returns — on the success path and on every failure path of
the S3-upload / ingestion-trigger attempt (the `finally` block removes
it unconditionally). -/
theorem upload_local_file_removed (fn : String) (env : UploadEnv)
    (h : allowed_file fn = true) :
    localFileExists (uploadPost (some fn) env).2 = false := by
  have hne : fn ≠ "" := by
    intro hfn
    subst hfn
    simp [allowed_file, allowedExtensions, pyLower, extAfterLastDot] at h
  unfold uploadPost
  simp only [if_neg hne, if_pos h]
  rcases h1 : env.s3UploadResult with e | u
  · simp [localFileExists]
  · rcases h2 : env.ingestionResult with e | j <;> simp [localFileExists]

/-- Witness for C3: uploading `report.pdf` with a succeeding S3 copy and
ingestion trigger leaves no local file behind. -/
theorem upload_local_file_removed_witness :
    allowed_file "report.pdf" = true ∧
    localFileExists (uploadPost (some "report.pdf")
      ⟨fun s => s, Except.ok (), Except.ok "job-1"⟩).2 = false :=
  ⟨by decide, upload_local_file_removed "report.pdf" _ (by decide)⟩

/-- Claim C5: for every POST `/upload` request carrying a file whose
filename lacks the allowed extension (`.pdf` after lowercasing), the
handler returns HTTP 400 with a JSON body of shape
`\x7b"error": message\x7d`. -/
theorem upload_rejects_bad_extension (fn : String) (env : UploadEnv)
    (h : allowed_file fn = false) :
    ∃ m, (uploadPost (some fn) env).1 = Resp.json 400 (jsonError m) := by
  unfold uploadPost
  by_cases hne : fn = ""
  · subst hne
    exact ⟨"No selected file", by simp⟩
  · simp only [if_neg hne, h, Bool.false_eq_true, if_false]
    exact ⟨"Invalid file type", rfl⟩

/-- Witness for C5: uploading `notes.txt` yields a 400 JSON error. -/
theorem upload_rejects_bad_extension_witness :
    allowed_file "notes.txt" = false ∧
    ∃ m, (uploadPost (some "notes.txt")
      ⟨fun s => s, Except.ok (), Except.ok "job-9"⟩).1 = Resp.json 400 (jsonError m) :=
  ⟨by decide, upload_rejects_bad_extension "notes.txt" _ (by decide)⟩

/-- Claim C9: every POST `/upload` request rejected with a client error
(missing file part, empty filename, or disallowed extension) performs no
side effects: no local save, no S3 upload, no ingestion trigger. -/
theorem upload_rejection_no_side_effects (env : UploadEnv) :
    (uploadPost none env).2 = [] ∧
    (uploadPost (some "") env).2 = [] ∧
    ∀ fn, allowed_file fn = false → (uploadPost (some fn) env).2 = [] := by
  refine ⟨rfl, by simp [uploadPost], ?_⟩
  intro fn h
  unfold uploadPost
  by_cases hne : fn = ""
  · subst hne; simp
  · simp only [if_neg hne, h, Bool.false_eq_true, if_false]

/-- Witness for C9: the rejected upload of `malware.exe` produces an
empty effect trace. -/
theorem upload_rejection_no_side_effects_witness :
    allowed_file "malware.exe" = false ∧
    (uploadPost (some "malware.exe")
      ⟨fun s => s, Except.ok (), Except.ok "job-2"⟩).2 = [] :=
  ⟨by decide,
   (upload_rejection_no_side_effects _).2.2 "malware.exe" (by decide)⟩

/-- Claim C6: a POST `/query` whose `query` form field is empty or absent
gets HTTP 400 with a JSON error body, and no retrieval or generation call
is made (the outbound trace is empty). -/
theorem query_rejects_empty (env : QueryEnv) (q : Option String)
    (h : q = none ∨ q = some "") :
    queryPost q env = (Resp.json 400 (jsonError "No query provided"), []) := by
  rcases h with h | h <;> subst h <;> simp [queryPost]

/-- Witness for C6: the empty query on a concrete environment. -/
theorem query_rejects_empty_witness :
    queryPost (some "") ⟨"kb-1", Except.ok [], fun _ => Except.ok "a"⟩
      = (Resp.json 400 (jsonError "No query provided"), []) :=
  query_rejects_empty _ _ (Or.inr rfl)

/-- Claim C8: for every non-empty query, every retrieval call in the
outbound trace uses result count 5 and `HYBRID` ranking, and every
generation call uses max tokens 512, temperature 0.5 and top-p 1 —
independent of the query text and of the external outcomes. -/
theorem query_fixed_parameters (q : String) (env : QueryEnv) (h : q ≠ "") :
    ∀ call ∈ (queryPost (some q) env).2,
      (∀ kb qt n st, call = QueryCall.retrieve kb qt n st →
        n = 5 ∧ st = "HYBRID") ∧
      (∀ mid p, call = QueryCall.invokeModel mid p →
        p.max_tokens = 512 ∧ p.temperature = 0.5 ∧ p.top_p = 1) := by
  have hret : ∀ kb qt : String,
      (∀ kb2 qt2 n st, QueryCall.retrieve kb qt 5 "HYBRID"
          = QueryCall.retrieve kb2 qt2 n st → n = 5 ∧ st = "HYBRID") ∧
      (∀ mid p, QueryCall.retrieve kb qt 5 "HYBRID"
          = QueryCall.invokeModel mid p →
        p.max_tokens = 512 ∧ p.temperature = 0.5 ∧ p.top_p = 1) := by
    intro kb qt
    constructor
    · rintro kb2 qt2 n st heq
      injection heq with h1 h2 h3 h4
      exact ⟨h3.symm, h4.symm⟩
    · rintro mid p heq
      exact absurd heq (by simp)
  have hinv : ∀ (mid0 : String) (m : String),
      (∀ kb2 qt2 n st, QueryCall.invokeModel mid0 (mkSonnetPayload m)
          = QueryCall.retrieve kb2 qt2 n st → n = 5 ∧ st = "HYBRID") ∧
      (∀ mid p, QueryCall.invokeModel mid0 (mkSonnetPayload m)
          = QueryCall.invokeModel mid p →
        p.max_tokens = 512 ∧ p.temperature = 0.5 ∧ p.top_p = 1) := by
    intro mid0 m
    constructor
    · rintro kb2 qt2 n st heq
      exact absurd heq (by simp)
    · rintro mid p heq
      injection heq with h1 h2
      subst h2
      exact ⟨rfl, rfl, rfl⟩
  unfold queryPost
  simp only [if_neg h]
  cases h1 : env.retrieveResult with
  | error e =>
    simp only [h1]
    intro call hc
    simp only [List.mem_singleton] at hc
    subst hc
    exact hret env.kbId q
  | ok ctxs =>
    simp only [h1]
    cases h2 : messageText ctxs q with
    | none =>
      simp only [h2]
      intro call hc
      simp only [List.mem_singleton] at hc
      subst hc
      exact hret env.kbId q
    | some m =>
      simp only [h2]
      cases h3 : env.invokeResult (mkSonnetPayload m) with
      | error e =>
        simp only [h3]
        intro call hc
        simp only [List.mem_cons, List.mem_singleton] at hc
        rcases hc with hc | hc | hc
        · subst hc; exact hret env.kbId q
        · subst hc; exact hinv _ m
        · cases hc
      | ok answer =>
        simp only [h3]
        intro call hc
        simp only [List.mem_cons, List.mem_singleton] at hc
        rcases hc with hc | hc | hc
        · subst hc; exact hret env.kbId q
        · subst hc; exact hinv _ m
        · cases hc

/-- Witness for C8: the fixed parameters at a concrete query and
environment. -/
theorem query_fixed_parameters_witness :
    ("What was Q1 revenue?" ≠ "") ∧
    ∀ call ∈ (queryPost (some "What was Q1 revenue?")
        ⟨"kb-1", Except.ok ["Q1 revenue was 10M."],
         fun _ => Except.ok "It was 10M."⟩).2,
      (∀ kb qt n st, call = QueryCall.retrieve kb qt n st →
        n = 5 ∧ st = "HYBRID") ∧
      (∀ mid p, call = QueryCall.invokeModel mid p →
        p.max_tokens = 512 ∧ p.temperature = 0.5 ∧ p.top_p = 1) :=
  ⟨by decide, query_fixed_parameters "What was Q1 revenue?" _ (by decide)⟩

set_option maxRecDepth 200000 in
/-- Claim C10: for every query and list of retrieved passage texts with
no brace characters, the message text sent to the generation call is
exactly the assembled prompt — the extra `.format(contexts, query)` on
the already-interpolated prompt is the identity on such inputs. -/
theorem format_on_prompt_is_identity (contexts : List String)
    (query : String) (hctx : ∀ p ∈ contexts, braceFree p = true)
    (hq : braceFree query = true) :
    messageText contexts query = some (buildPrompt contexts query) := by
  apply pyFormat_of_braceFree
  unfold buildPrompt
  rw [braceFree_append, braceFree_append, braceFree_append, braceFree_append,
    pyStrList_braceFree contexts hctx, hq]
  have h1 : braceFree promptPart1 = true := by decide
  have h2 : braceFree promptPart2 = true := by decide
  have h3 : braceFree promptPart3 = true := by decide
  simp [h1, h2, h3]

set_option maxRecDepth 200000 in
/-- Witness for C10: the identity at a concrete passage list and query. -/
theorem format_on_prompt_is_identity_witness :
    (∀ p ∈ ["Revenue was 5M."], braceFree p = true) ∧
    braceFree "What was Q1 revenue?" = true ∧
    messageText ["Revenue was 5M."] "What was Q1 revenue?"
      = some (buildPrompt ["Revenue was 5M."] "What was Q1 revenue?") :=
  ⟨by decide, by decide,
   format_on_prompt_is_identity _ _ (by decide) (by decide)⟩

set_option maxRecDepth 200000 in
/-- Claim C2 (code bug): on a successful retrieval and generation, the
handler returns the bare generated text as a 200 text body — the
retrieved passages appear nowhere in the response, although the repo's
own front-end (app.py lines 645-664) reads `answer` and
`retrieved_chunks` fields from a JSON body.  This theorem evaluates the
handler at the failing input. -/
theorem query_success_returns_bare_answer :
    queryPost (some "What was Q1 revenue?")
      ⟨"kb-1", Except.ok ["Q1 revenue was 10M."],
       fun _ => Except.ok "Q1 revenue was 10M."⟩
      = (Resp.text 200 "Q1 revenue was 10M.",
         [QueryCall.retrieve "kb-1" "What was Q1 revenue?" 5 "HYBRID",
          QueryCall.invokeModel "anthropic.claude-3-sonnet-20240229-v1:0"
            (mkSonnetPayload
              (buildPrompt ["Q1 revenue was 10M."] "What was Q1 revenue?"))]) := by
  have hmt : messageText ["Q1 revenue was 10M."] "What was Q1 revenue?"
      = some (buildPrompt ["Q1 revenue was 10M."] "What was Q1 revenue?") :=
    pyFormat_of_braceFree _ _ (by decide)
  unfold queryPost
  simp [hmt]

/-! ### Ordering of deletion (C4) and cleanup robustness (C7) -/

/-- Every event the data-source deletion loop emits is a data-source
deletion (phase 1). -/
theorem ddsLoop_phase (env : DeleteEnv) (ids : List String) :
    ∀ e ∈ (deleteDataSourcesLoop env ids).2, deletePhase e = 1 := by
  induction ids with
  | nil => intro e he; simp [deleteDataSourcesLoop] at he
  | cons d rest ih =>
    intro e he
    unfold deleteDataSourcesLoop at he
    cases h1 : env.deleteDataSource d with
    | error msg =>
      simp only [h1] at he
      simp only [List.mem_singleton] at he
      subst he; rfl
    | ok u =>
      simp only [h1] at he
      simp only [List.mem_cons] at he
      rcases he with he | he
      · subst he; rfl
      · exact ih e he

/-- Every event a single-bucket purge emits is a storage operation
(phase 3). -/
theorem purgeOne_phase (env : DeleteEnv) (bucket : String) :
    ∀ e ∈ (purgeOneBucket env bucket).2, deletePhase e = 3 := by
  intro e he
  unfold purgeOneBucket at he
  cases h1 : env.listObjects bucket with
  | error msg =>
    simp only [h1, List.mem_singleton] at he
    subst he; rfl
  | ok keys =>
    simp only [h1] at he
    by_cases hk : keys.isEmpty
    · simp only [if_pos hk] at he
      cases h2 : env.deleteBucket bucket with
      | error msg =>
        simp only [h2, List.mem_cons, List.mem_singleton] at he
        rcases he with he | he | he <;> first | (subst he; rfl) | cases he
      | ok u =>
        simp only [h2, List.mem_cons, List.mem_singleton] at he
        rcases he with he | he | he <;> first | (subst he; rfl) | cases he
    · simp only [if_neg hk] at he
      cases h2 : env.deleteObjects bucket keys with
      | error msg =>
        simp only [h2, List.mem_cons, List.mem_singleton] at he
        rcases he with he | he | he <;> first | (subst he; rfl) | cases he
      | ok u =>
        simp only [h2] at he
        cases h3 : env.deleteBucket bucket with
        | error msg =>
          simp only [h3, List.mem_cons, List.mem_singleton] at he
          rcases he with he | he | he | he <;> first | (subst he; rfl) | cases he
        | ok u2 =>
          simp only [h3, List.mem_cons, List.mem_singleton] at he
          rcases he with he | he | he | he <;> first | (subst he; rfl) | cases he

/-- Every event the bucket purge loop emits is a storage operation
(phase 3). -/
theorem purgeLoop_phase (env : DeleteEnv) (sources : List DataSource) :
    ∀ e ∈ (purgeBucketsLoop env sources).2, deletePhase e = 3 := by
  induction sources with
  | nil => intro e he; simp [purgeBucketsLoop] at he
  | cons s rest ih =>
    intro e he
    unfold purgeBucketsLoop at he
    by_cases hs : s.type = "S3"
    · simp only [if_pos hs] at he
      rcases h1 : purgeOneBucket env s.bucket_name with ⟨r, t⟩
      rw [h1] at he
      cases r with
      | error msg =>
        have := purgeOne_phase env s.bucket_name e
        rw [h1] at this
        exact this he
      | ok u =>
        simp only [List.mem_append] at he
        rcases he with he | he
        · have := purgeOne_phase env s.bucket_name e
          rw [h1] at this
          exact this he
        · exact ih e he
    · simp only [if_neg hs] at he
      exact ih e he

/-- A list whose elements all share one phase is pairwise
phase-monotone. -/
theorem pairwise_phase_const (l : List DeleteEvent) (c : Nat)
    (h : ∀ e ∈ l, deletePhase e = c) :
    l.Pairwise (fun a b => deletePhase a ≤ deletePhase b) := by
  induction l with
  | nil => exact List.Pairwise.nil
  | cons x rest ih =>
    refine List.Pairwise.cons ?_ (ih (fun e he => h e (List.mem_cons_of_mem _ he)))
    intro b hb
    rw [h x (List.mem_cons_self _ _), h b (List.mem_cons_of_mem _ hb)]

/-- Claim C4: in every execution of `delete_kb` with storage purge
requested, the outbound call trace is ordered by phase — every
data-source deletion precedes the knowledge-base deletion, which
precedes every storage operation (object listing, bulk delete, bucket
delete). -/
theorem delete_kb_deletion_ordered (kbId : Option String)
    (sources : List DataSource) (env : DeleteEnv) :
    ((delete_kb kbId true sources env).2.map deletePhase).Sorted (· ≤ ·) := by
  have sorted_of_pairwise :
      ∀ l : List DeleteEvent,
        l.Pairwise (fun a b => deletePhase a ≤ deletePhase b) →
        (l.map deletePhase).Sorted (· ≤ ·) := by
    intro l hl
    exact (List.pairwise_map).mpr hl
  unfold delete_kb
  cases kbId with
  | none => simp
  | some k =>
    cases h1 : env.listDataSources with
    | error e => simp [List.Sorted]
    | ok ids =>
      simp only [h1]
      rcases h2 : deleteDataSourcesLoop env ids with ⟨r, t⟩
      have ht : ∀ e ∈ t, deletePhase e = 1 := by
        have := ddsLoop_phase env ids
        rw [h2] at this
        exact this
      cases r with
      | error e =>
        apply sorted_of_pairwise
        refine List.Pairwise.cons ?_ (pairwise_phase_const t 1 ht)
        intro b hb
        rw [ht b hb]
        decide
      | ok u =>
        cases h3 : env.deleteKnowledgeBase with
        | error e =>
          apply sorted_of_pairwise
          show List.Pairwise (fun a b => deletePhase a ≤ deletePhase b)
            (DeleteEvent.listDataSources :: (t ++ [DeleteEvent.deleteKnowledgeBase]))
          refine List.Pairwise.cons ?_ ?_
          · intro b hb
            rcases List.mem_append.mp hb with hb | hb
            · rw [ht b hb]; decide
            · simp only [List.mem_singleton] at hb
              subst hb; decide
          · rw [List.pairwise_append]
            refine ⟨pairwise_phase_const t 1 ht, ?_, ?_⟩
            · exact pairwise_phase_const _ 2 (by intro e he; simp at he; subst he; rfl)
            · intro x hx y hy
              simp only [List.mem_singleton] at hy
              subst hy
              rw [ht x hx]
              decide
        | ok u2 =>
          rcases h4 : purgeBucketsLoop env sources with ⟨r2, t2⟩
          have ht2 : ∀ e ∈ t2, deletePhase e = 3 := by
            have := purgeLoop_phase env sources
            rw [h4] at this
            exact this
          apply sorted_of_pairwise
          simp only [h4, if_true]
          show List.Pairwise (fun a b => deletePhase a ≤ deletePhase b)
            (DeleteEvent.listDataSources :: (t ++ [DeleteEvent.deleteKnowledgeBase] ++ t2))
          rw [List.append_assoc]
          refine List.Pairwise.cons ?_ ?_
          · intro b hb
            rcases List.mem_append.mp hb with hb | hb
            · rw [ht b hb]; decide
            · rcases List.mem_append.mp hb with hb | hb
              · simp only [List.mem_singleton] at hb
                subst hb; decide
              · rw [ht2 b hb]; decide
          · rw [List.pairwise_append]
            refine ⟨pairwise_phase_const t 1 ht, ?_, ?_⟩
            · rw [List.pairwise_append]
              refine ⟨pairwise_phase_const _ 2
                  (by intro e he; simp at he; subst he; rfl),
                pairwise_phase_const t2 3 ht2, ?_⟩
              intro x hx y hy
              simp only [List.mem_singleton] at hx
              subst hx
              rw [ht2 y hy]
              decide
            · intro x hx y hy
              rw [ht x hx]
              rcases List.mem_append.mp hy with hy | hy
              · simp only [List.mem_singleton] at hy
                subst hy; decide
              · rw [ht2 y hy]; decide

/-- Claim C7: when `delete_kb` raises because the knowledge base is
already gone (the data-source listing fails, as on a second `/cleanup`
call after a successful first one), the `/cleanup` route returns a JSON
500 error carrying the underlying message — it never re-raises (the
model is a total function into `Resp`, mirroring the route's
catch-all). -/
theorem cleanup_after_cleanup_returns_json_error (k : String)
    (sources : List DataSource) (env : DeleteEnv) (m : String)
    (h : env.listDataSources = Except.error m) :
    cleanup (some k) sources env = Resp.json 500 (jsonError m) := by
  unfold cleanup delete_kb
  simp only [h]

/-- Witness for C7: a second cleanup against an environment whose
listing reports the knowledge base as missing. -/
theorem cleanup_after_cleanup_returns_json_error_witness :
    (DeleteEnv.listDataSources
      ⟨Except.error "ResourceNotFoundException: knowledge base not found",
       fun _ => Except.ok (), Except.ok (), fun _ => Except.ok [],
       fun _ _ => Except.ok (), fun _ => Except.ok ()⟩
      = Except.error "ResourceNotFoundException: knowledge base not found") ∧
    cleanup (some "kb-1") [DataSource.mk "S3" "bucket-1"]
      ⟨Except.error "ResourceNotFoundException: knowledge base not found",
       fun _ => Except.ok (), Except.ok (), fun _ => Except.ok [],
       fun _ _ => Except.ok (), fun _ => Except.ok ()⟩
      = Resp.json 500
          (jsonError "ResourceNotFoundException: knowledge base not found") :=
  ⟨rfl, cleanup_after_cleanup_returns_json_error "kb-1" _ _ _ rfl⟩

/-! ### Provisioning error propagation (C1) -/

/-- For the singleton S3 source list, the bucket-creation loop makes
exactly one call, whatever the outcome. -/
theorem createBucketsLoop_singleton (env : ProvEnv) (bucket : String) :
    createBucketsLoop env [DataSource.mk "S3" bucket]
      = [ProvCall.createBucket bucket] := by
  simp only [createBucketsLoop]
  rcases h : env.createBucket bucket with _ | _ <;> simp [h, createBucketsLoop]

/-- The role-creation helper emits one of three duplicate-free traces. -/
theorem create_role_trace_cases (sfx : String) (env : ProvEnv) :
    (create_role_for_kb sfx env).2
        = [ProvCall.createRole ("BedrockKBRole-" ++ sfx)] ∨
    (create_role_for_kb sfx env).2
        = [ProvCall.createRole ("BedrockKBRole-" ++ sfx),
           ProvCall.createPolicy ("BedrockKBPolicy-" ++ sfx)] ∨
    (create_role_for_kb sfx env).2
        = [ProvCall.createRole ("BedrockKBRole-" ++ sfx),
           ProvCall.createPolicy ("BedrockKBPolicy-" ++ sfx),
           ProvCall.attachRolePolicy] := by
  unfold create_role_for_kb
  rcases h1 : env.createRole ("BedrockKBRole-" ++ sfx) with _ | _ <;>
    simp only [h1]
  · simp
  · rcases h2 : env.createPolicy ("BedrockKBPolicy-" ++ sfx) with _ | _ <;>
      simp only [h2]
    · simp
    · rcases h3 : env.attachRolePolicy with _ | _ <;> simp only [h3] <;> simp

/-- For the singleton S3 source list, the data-source loop makes exactly
one call, whatever the outcome. -/
theorem addDataSourcesLoop_singleton (env : ProvEnv) (bucket : String) :
    (addDataSourcesLoop env [DataSource.mk "S3" bucket]).2
      = [ProvCall.createDataSource bucket] := by
  simp only [addDataSourcesLoop]
  rcases h : env.createDataSource bucket with _ | _ <;>
    simp [h, addDataSourcesLoop]

/-- The provisioning result is determined by the role, knowledge-base
and data-source outcomes alone (the bucket outcomes play no part). -/
theorem setup_result (sources : List DataSource) (sfx : String)
    (env : ProvEnv) :
    (setup_knowledge_base sources sfx env).1 =
      (match (create_role_for_kb sfx env).1 with
       | Except.error e2 => Except.error e2
       | Except.ok _ =>
         match env.createKnowledgeBase with
         | Except.error e2 => Except.error e2
         | Except.ok kbId =>
           match (addDataSourcesLoop env sources).1 with
           | Except.error e2 => Except.error e2
           | Except.ok _ => Except.ok kbId) := by
  unfold setup_knowledge_base
  rcases h1 : create_role_for_kb sfx env with ⟨r1, t1⟩
  simp only [h1]
  cases r1 with
  | error e2 => rfl
  | ok arn =>
    cases h2 : env.createKnowledgeBase with
    | error e2 => rfl
    | ok kbId =>
      rcases h3 : addDataSourcesLoop env sources with ⟨r2, t2⟩
      simp only [h3]
      cases r2 <;> rfl

/-- Counterexample to claim C1 as stated: with a bucket creation that
fails (`AccessDenied`) and every later step succeeding, provisioning
still reports success — the bucket-creation error is caught, logged and
swallowed (app.py lines 59-63), not propagated to the caller. -/
theorem setup_swallows_bucket_error :
    (setup_knowledge_base [DataSource.mk "S3" "bucket-1"] "sfx"
      ⟨fun _ => Except.error "AccessDenied: cannot create bucket",
       fun _ => Except.ok "role-arn", fun _ => Except.ok "policy-arn",
       Except.ok (), Except.ok "kb-1", fun _ => Except.ok "ds-1"⟩).1
      = Except.ok "kb-1" := rfl

/-- Claim C1 (amended): errors raised while creating the IAM role, the
policy, the policy attachment, the knowledge base, or the data source
propagate to the caller unchanged and without retry (the call trace has
no duplicates); a bucket-creation error, however, is caught and logged
and provisioning continues — the result never depends on the
bucket-creation outcome. -/
theorem setup_error_propagation (env : ProvEnv) (sfx bucket e : String) :
    (∀ f g : String → Except String Unit,
      (setup_knowledge_base [DataSource.mk "S3" bucket] sfx
        { env with createBucket := f }).1
      = (setup_knowledge_base [DataSource.mk "S3" bucket] sfx
        { env with createBucket := g }).1) ∧
    (env.createRole ("BedrockKBRole-" ++ sfx) = Except.error e →
      (setup_knowledge_base [DataSource.mk "S3" bucket] sfx env).1
        = Except.error e) ∧
    (∀ arn, env.createRole ("BedrockKBRole-" ++ sfx) = Except.ok arn →
      env.createPolicy ("BedrockKBPolicy-" ++ sfx) = Except.error e →
      (setup_knowledge_base [DataSource.mk "S3" bucket] sfx env).1
        = Except.error e) ∧
    (∀ arn parn, env.createRole ("BedrockKBRole-" ++ sfx) = Except.ok arn →
      env.createPolicy ("BedrockKBPolicy-" ++ sfx) = Except.ok parn →
      env.attachRolePolicy = Except.error e →
      (setup_knowledge_base [DataSource.mk "S3" bucket] sfx env).1
        = Except.error e) ∧
    (∀ arn parn, env.createRole ("BedrockKBRole-" ++ sfx) = Except.ok arn →
      env.createPolicy ("BedrockKBPolicy-" ++ sfx) = Except.ok parn →
      env.attachRolePolicy = Except.ok () →
      env.createKnowledgeBase = Except.error e →
      (setup_knowledge_base [DataSource.mk "S3" bucket] sfx env).1
        = Except.error e) ∧
    (∀ arn parn kbid, env.createRole ("BedrockKBRole-" ++ sfx) = Except.ok arn →
      env.createPolicy ("BedrockKBPolicy-" ++ sfx) = Except.ok parn →
      env.attachRolePolicy = Except.ok () →
      env.createKnowledgeBase = Except.ok kbid →
      env.createDataSource bucket = Except.error e →
      (setup_knowledge_base [DataSource.mk "S3" bucket] sfx env).1
        = Except.error e) ∧
    (setup_knowledge_base [DataSource.mk "S3" bucket] sfx env).2.Nodup := by
  refine ⟨?_, ?_, ?_, ?_, ?_, ?_, ?_⟩
  · intro f g
    rw [setup_result, setup_result]
    have hrole : (create_role_for_kb sfx { env with createBucket := f }).1
        = (create_role_for_kb sfx { env with createBucket := g }).1 := rfl
    have hds : (addDataSourcesLoop { env with createBucket := f }
          [DataSource.mk "S3" bucket]).1
        = (addDataSourcesLoop { env with createBucket := g }
          [DataSource.mk "S3" bucket]).1 := rfl
    rw [hrole, hds]
  · intro h
    unfold setup_knowledge_base create_role_for_kb
    simp only [h]
  · intro arn h1 h2
    unfold setup_knowledge_base create_role_for_kb
    simp only [h1, h2]
  · intro arn parn h1 h2 h3
    unfold setup_knowledge_base create_role_for_kb
    simp only [h1, h2, h3]
  · intro arn parn h1 h2 h3 h4
    unfold setup_knowledge_base create_role_for_kb
    simp only [h1, h2, h3, h4]
  · intro arn parn kbid h1 h2 h3 h4 h5
    unfold setup_knowledge_base create_role_for_kb addDataSourcesLoop
    simp only [h1, h2, h3, h4, h5]
    simp
  · unfold setup_knowledge_base
    rw [createBucketsLoop_singleton]
    rcases h1 : create_role_for_kb sfx env with ⟨r1, t1⟩
    have ht1 := create_role_trace_cases sfx env
    rw [h1] at ht1
    simp only [h1]
    cases r1 with
    | error e2 =>
      rcases ht1 with ht1 | ht1 | ht1 <;> subst ht1 <;> simp
    | ok arn =>
      cases h2 : env.createKnowledgeBase with
      | error e2 =>
        rcases ht1 with ht1 | ht1 | ht1 <;> subst ht1 <;> simp
      | ok kbId =>
        rcases h3 : addDataSourcesLoop env [DataSource.mk "S3" bucket]
          with ⟨r2, t2⟩
        have ht2 := addDataSourcesLoop_singleton env bucket
        rw [h3] at ht2
        simp only [h3]
        subst ht2
        cases r2 <;>
          rcases ht1 with ht1 | ht1 | ht1 <;> subst ht1 <;> simp

/-- Witness for C1 (amended): a failing role creation propagates its
message out of provisioning. -/
theorem setup_error_propagation_witness :
    (setup_knowledge_base [DataSource.mk "S3" "bucket-1"] "sfx"
      ⟨fun _ => Except.ok (), fun _ => Except.error "role-denied",
       fun _ => Except.ok "policy-arn", Except.ok (), Except.ok "kb-1",
       fun _ => Except.ok "ds-1"⟩).1 = Except.error "role-denied" :=
  (setup_error_propagation
    ⟨fun _ => Except.ok (), fun _ => Except.error "role-denied",
     fun _ => Except.ok "policy-arn", Except.ok (), Except.ok "kb-1",
     fun _ => Except.ok "ds-1"⟩ "sfx" "bucket-1" "role-denied").2.1 rfl

end App
